import Mathlib

/-!
Shallow embedding of the graphics-switching core of system76-power
(src/graphics.rs).  Kernel-visible state (device-node existence, driver
bindings, the modprobe file, external command outcomes) is made explicit:
fallible sysfs queries are `Except IOError` values carried by the device
records, and every mutating operation returns its result together with the
updated state and a trace of the externally visible effects it issued.
-/

deriving instance DecidableEq for Except

/-- Kind of an I/O error, mirroring the `std::io::ErrorKind` values the
source inspects (`NotFound` is treated specially; everything else is
lumped together). -/
inductive IOErrorKind where
  | notFound
  | other
  deriving Repr, DecidableEq

/-- An I/O error: its kind plus an uninterpreted message. -/
structure IOError where
  kind : IOErrorKind
  msg : String
  deriving Repr, DecidableEq

/-- The `GraphicsDeviceError` enum of the source, with the same variants
and context fields (process exit statuses are modelled as `Nat`). -/
inductive GraphicsDeviceError where
  | Command (cmd : String) (why : IOError)
  | DeviceInUse (func : String) (driver : String)
  | ModprobeFileOpen (why : IOError)
  | ModprobeFileWrite (why : IOError)
  | ModulesFetch (why : IOError)
  | NotSwitchable
  | PciDriver (device : String) (why : IOError)
  | Remove (device : String) (why : IOError)
  | Rescan (why : IOError)
  | Unbind (func : String) (driver : String) (why : IOError)
  | UpdateInitramfs (status : Nat)
  deriving Repr, DecidableEq

/-- Externally visible effects a graphics operation can issue. -/
inductive Effect where
  | fileWrite (path : String) (content : String)
  | runCommand (cmd : String) (args : List String)
  | rescan
  | unbindWrite (driver : String) (func : String)
  | removeWrite (func : String)
  deriving Repr, DecidableEq

def Effect.isUnbindWrite : Effect → Bool
  | Effect.unbindWrite _ _ => true
  | _ => false

def Effect.isRemoveWrite : Effect → Bool
  | Effect.removeWrite _ => true
  | _ => false

/-- A PCI function as seen through sysfs: its address id, the (fallible)
class-code and vendor-id reads, whether its device node currently exists,
the (fallible) driver-binding query, and the outcomes the kernel would
give to an unbind write or a remove write on it. -/
structure PciDevice where
  id : String
  classCode : Except IOError Nat
  vendor : Except IOError Nat
  nodeExists : Bool
  driver : Except IOError String
  unbindErr : Option IOError
  removeErr : Option IOError
  deriving Repr, DecidableEq

/-- A logical GPU package: an id plus its sibling PCI functions. -/
structure GraphicsDevice where
  id : String
  functions : List PciDevice
  deriving Repr, DecidableEq

def GraphicsDevice.new (id : String) (functions : List PciDevice) : GraphicsDevice :=
  { id := id, functions := functions }

/-- `GraphicsDevice::exists`: some owned function still has a live node. -/
def GraphicsDevice.exists (d : GraphicsDevice) : Bool :=
  d.functions.any (fun func => func.nodeExists)

/-- One iteration of the loop in `GraphicsDevice::unbind` for a single
function: if the node exists and a driver is bound, issue the unbind write
(failure is an `Unbind` error); a `NotFound` driver query is a no-op; any
other driver-query failure is a `PciDriver` error tagged with the device
id.  Returns the result, the updated function state, and the effects
issued. -/
def unbindStep (devId : String) (f : PciDevice) :
    Except GraphicsDeviceError Unit × PciDevice × List Effect :=
  if f.nodeExists then
    match f.driver with
    | Except.ok drv =>
      match f.unbindErr with
      | none =>
        (Except.ok (), { f with driver := Except.error ⟨IOErrorKind.notFound, "no driver"⟩ },
          [Effect.unbindWrite drv f.id])
      | some why =>
        (Except.error (GraphicsDeviceError.Unbind f.id drv why), f, [Effect.unbindWrite drv f.id])
    | Except.error why =>
      match why.kind with
      | IOErrorKind.notFound => (Except.ok (), f, [])
      | IOErrorKind.other => (Except.error (GraphicsDeviceError.PciDriver devId why), f, [])
  else
    (Except.ok (), f, [])

/-- One iteration of the loop in `GraphicsDevice::remove` for a single
function: a still-bound driver is a hard `DeviceInUse` failure with no
remove write; a `NotFound` driver query lets the remove write proceed
(failure there is a `Remove` error tagged with the device id); any other
driver-query failure is a `PciDriver` error; a missing node is a no-op. -/
def removeStep (devId : String) (f : PciDevice) :
    Except GraphicsDeviceError Unit × PciDevice × List Effect :=
  if f.nodeExists then
    match f.driver with
    | Except.ok drv =>
      (Except.error (GraphicsDeviceError.DeviceInUse f.id drv), f, [])
    | Except.error why =>
      match why.kind with
      | IOErrorKind.notFound =>
        match f.removeErr with
        | none => (Except.ok (), { f with nodeExists := false }, [Effect.removeWrite f.id])
        | some why2 =>
          (Except.error (GraphicsDeviceError.Remove devId why2), f, [Effect.removeWrite f.id])
      | IOErrorKind.other => (Except.error (GraphicsDeviceError.PciDriver devId why), f, [])
  else
    (Except.ok (), f, [])

/-- Run a per-element state transformer over a list in order, stopping at
the first error (the `?` operator inside the source loops); elements after
the failure point are left untouched.  Returns the first error (if any),
the updated list, and the concatenated effect trace. -/
def runSeq {α : Type} (step : α → Except GraphicsDeviceError Unit × α × List Effect) :
    List α → Except GraphicsDeviceError Unit × List α × List Effect
  | [] => (Except.ok (), [], [])
  | x :: xs =>
    match step x with
    | (Except.error e, x2, tr) => (Except.error e, x2 :: xs, tr)
    | (Except.ok _, x2, tr) =>
      match runSeq step xs with
      | (r, xs2, tr2) => (r, x2 :: xs2, tr ++ tr2)

/-- `GraphicsDevice::unbind`: run `unbindStep` over the functions in
order, short-circuiting on the first error. -/
def GraphicsDevice.unbind (d : GraphicsDevice) :
    Except GraphicsDeviceError Unit × GraphicsDevice × List Effect :=
  match runSeq (unbindStep d.id) d.functions with
  | (r, fs, tr) => (r, { d with functions := fs }, tr)

/-- `GraphicsDevice::remove`: run `removeStep` over the functions in
order, short-circuiting on the first error. -/
def GraphicsDevice.remove (d : GraphicsDevice) :
    Except GraphicsDeviceError Unit × GraphicsDevice × List Effect :=
  match runSeq (removeStep d.id) d.functions with
  | (r, fs, tr) => (r, { d with functions := fs }, tr)

/-- The Graphics subsystem: the four vendor-classified device lists.  The
PCI bus handle is not carried here; the outcome of a rescan trigger is
passed to the operations that issue one. -/
structure Graphics where
  amd : List GraphicsDevice
  intel : List GraphicsDevice
  nvidia : List GraphicsDevice
  other : List GraphicsDevice
  deriving Repr, DecidableEq

/-- Path of the generated modprobe configuration file. -/
def MODPROBE_PATH : String := "/etc/modprobe.d/system76-power.conf"

/-- Byte template written when the target vendor is `nvidia`
(header-only marker). -/
def MODPROBE_NVIDIA : String :=
  "# Automatically generated by system76-power\n"

/-- Byte template written for any other target vendor: the header plus the
blacklist/alias directives disabling the NVIDIA/Nouveau module family. -/
def MODPROBE_INTEL : String :=
  "# Automatically generated by system76-power\nblacklist i2c_nvidia_gpu\nblacklist nouveau\nblacklist nvidia\nblacklist nvidia-drm\nblacklist nvidia-modeset\nalias i2c_nvidia_gpu off\nalias nouveau off\nalias nvidia off\nalias nvidia-drm off\nalias nvidia-modeset off\n"

/-- `Graphics::can_switch`: both the Intel and the NVIDIA list are
non-empty. -/
def Graphics.can_switch (g : Graphics) : Bool :=
  !g.intel.isEmpty && !g.nvidia.isEmpty

/-- `Graphics::switchable_or_fail`. -/
def Graphics.switchable_or_fail (g : Graphics) : Except GraphicsDeviceError Unit :=
  if g.can_switch then Except.ok () else Except.error GraphicsDeviceError.NotSwitchable

/-- The slot part of a PCI address id: the text before the first dot
(`id.split(".").next()` of the source, which is always defined). -/
def slotOf (s : String) : String :=
  String.mk (s.data.takeWhile (fun c => !(c == Char.ofNat 46)))

/-- The sibling-collection closure inside `Graphics::new`: all enumerated
functions whose id shares the slot part (text before the first dot) of the
parent id. -/
def functionsOf (devs : List PciDevice) (parent : PciDevice) : List PciDevice :=
  devs.filter (fun func => slotOf func.id == slotOf parent.id)

/-- The classification loop of `Graphics::new`: read each device class
(propagating a read failure), keep only class top-byte `0x03`, then read
the vendor id (again propagating failure) and append a Graphics Device to
the matching vendor list. -/
def classifyGo (all : List PciDevice) :
    List PciDevice → Graphics → Except IOError Graphics
  | [], g => Except.ok g
  | dev :: rest, g =>
    match dev.classCode with
    | Except.error e => Except.error e
    | Except.ok c =>
      if (c >>> 16) &&& 0xFF == 0x03 then
        match dev.vendor with
        | Except.error e => Except.error e
        | Except.ok v =>
          if v == 0x1002 then
            classifyGo all rest
              { g with amd := g.amd ++ [GraphicsDevice.new dev.id (functionsOf all dev)] }
          else if v == 0x10DE then
            classifyGo all rest
              { g with nvidia := g.nvidia ++ [GraphicsDevice.new dev.id (functionsOf all dev)] }
          else if v == 0x8086 then
            classifyGo all rest
              { g with intel := g.intel ++ [GraphicsDevice.new dev.id (functionsOf all dev)] }
          else
            classifyGo all rest
              { g with other := g.other ++ [GraphicsDevice.new dev.id (functionsOf all dev)] }
      else classifyGo all rest g

/-- `Graphics::new`: rescan the bus (failure is fatal), enumerate the PCI
devices (failure is fatal), then classify. -/
def Graphics.new (rescanErr : Option IOError)
    (devsResult : Except IOError (List PciDevice)) : Except IOError Graphics :=
  match rescanErr with
  | some e => Except.error e
  | none =>
    match devsResult with
    | Except.error e => Except.error e
    | Except.ok devs => classifyGo devs devs { amd := [], intel := [], nvidia := [], other := [] }

/-- `Graphics::get_vendor`: consult the loaded-module list (a fetch
failure is a `ModulesFetch` error); report `nvidia` iff a module named
`nouveau` or `nvidia` is loaded, else `intel`.  Not gated by
`can_switch`. -/
def Graphics.get_vendor (_g : Graphics) (modules : Except IOError (List String)) :
    Except GraphicsDeviceError String :=
  match modules with
  | Except.error why => Except.error (GraphicsDeviceError.ModulesFetch why)
  | Except.ok l =>
    Except.ok (if l.any (fun m => m == "nouveau" || m == "nvidia") then "nvidia" else "intel")

/-- `Graphics::get_power`: gated by `can_switch`; true iff any NVIDIA
device still exists. -/
def Graphics.get_power (g : Graphics) : Except GraphicsDeviceError Bool :=
  match g.switchable_or_fail with
  | Except.error e => Except.error e
  | Except.ok _ => Except.ok (g.nvidia.any GraphicsDevice.exists)

/-- `Graphics::set_power`: gated by `can_switch`.  `true` triggers a bus
rescan only (`rescanErr` is the outcome of that trigger write); `false`
lazily chains the unbind of every NVIDIA device with the remove of every
NVIDIA device and collects the first error
(`Result::from_iter(unbinds.chain(removes))`): unbinds run in order and
short-circuit, removes run only if every unbind succeeded. -/
def Graphics.set_power (g : Graphics) (rescanErr : Option IOError) (power : Bool) :
    Except GraphicsDeviceError Unit × Graphics × List Effect :=
  match g.switchable_or_fail with
  | Except.error e => (Except.error e, g, [])
  | Except.ok _ =>
    if power then
      match rescanErr with
      | some why => (Except.error (GraphicsDeviceError.Rescan why), g, [Effect.rescan])
      | none => (Except.ok (), g, [Effect.rescan])
    else
      match runSeq GraphicsDevice.unbind g.nvidia with
      | (Except.error e, nv, tr) => (Except.error e, { g with nvidia := nv }, tr)
      | (Except.ok _, nv, tr) =>
        match runSeq GraphicsDevice.remove nv with
        | (r, nv2, tr2) => (r, { g with nvidia := nv2 }, tr ++ tr2)

/-- State outside the PCI tree that `set_vendor` touches: the modprobe
file content, the outcome of opening and of writing it, and the spawn
outcome / exit status of the two external commands. -/
structure World where
  modprobe : Option String
  openErr : Option IOError
  writeErr : Option IOError
  systemctl : Except IOError Nat
  initramfs : Except IOError Nat
  deriving Repr, DecidableEq

/-- `Graphics::set_vendor`: gated by `can_switch`.  Open the modprobe file
with create+truncate (open failure is `ModprobeFileOpen`; a successful
open truncates whatever was there), write the template selected by
`vendor == "nvidia"` and fsync (failure is `ModprobeFileWrite`), then run
`systemctl enable/disable nvidia-fallback.service` (only a spawn failure
is an error; a non-zero exit is merely logged), then run
`update-initramfs -u` (spawn failure is a `Command` error, non-zero exit
is `UpdateInitramfs`). -/
def Graphics.set_vendor (g : Graphics) (w : World) (vendor : String) :
    Except GraphicsDeviceError Unit × World × List Effect :=
  match g.switchable_or_fail with
  | Except.error e => (Except.error e, w, [])
  | Except.ok _ =>
    match w.openErr with
    | some why => (Except.error (GraphicsDeviceError.ModprobeFileOpen why), w, [])
    | none =>
      let truncated := { w with modprobe := some "" }
      let content := if vendor == "nvidia" then MODPROBE_NVIDIA else MODPROBE_INTEL
      match w.writeErr with
      | some why =>
        (Except.error (GraphicsDeviceError.ModprobeFileWrite why), truncated,
          [Effect.fileWrite MODPROBE_PATH content])
      | none =>
        let written := { truncated with modprobe := some content }
        let action := if vendor == "nvidia" then "enable" else "disable"
        let tr1 := [Effect.fileWrite MODPROBE_PATH content,
          Effect.runCommand "systemctl" [action, "nvidia-fallback.service"]]
        match w.systemctl with
        | Except.error why =>
          (Except.error (GraphicsDeviceError.Command "systemctl" why), written, tr1)
        | Except.ok _ =>
          let tr2 := tr1 ++ [Effect.runCommand "update-initramfs" ["-u"]]
          match w.initramfs with
          | Except.error why =>
            (Except.error (GraphicsDeviceError.Command "update-initramfs" why), written, tr2)
          | Except.ok status =>
            if status == 0 then (Except.ok (), written, tr2)
            else (Except.error (GraphicsDeviceError.UpdateInitramfs status), written, tr2)

/-- `Graphics::auto_power`: `set_power(get_vendor()? == "nvidia")`. -/
def Graphics.auto_power (g : Graphics) (modules : Except IOError (List String))
    (rescanErr : Option IOError) :
    Except GraphicsDeviceError Unit × Graphics × List Effect :=
  match g.get_vendor modules with
  | Except.error e => (Except.error e, g, [])
  | Except.ok v => g.set_power rescanErr (v == "nvidia")

/-- The driver query of this function reports that no driver is bound. -/
def PciDevice.driverNotFound (f : PciDevice) : Bool :=
  match f.driver with
  | Except.error why =>
    match why.kind with
    | IOErrorKind.notFound => true
    | IOErrorKind.other => false
  | Except.ok _ => false

/-- The state of a function after its device node has been removed. -/
def PciDevice.powerOff (f : PciDevice) : PciDevice :=
  { f with nodeExists := false }

/-- The state of a device after all its existing functions were removed. -/
def GraphicsDevice.powerOff (d : GraphicsDevice) : GraphicsDevice :=
  { d with functions := d.functions.map PciDevice.powerOff }

/-- Split a character list at every newline (the lines of a file, the
last entry being the text after the final newline). -/
def splitOnNl : List Char → List (List Char)
  | [] => [[]]
  | c :: cs =>
    let r := splitOnNl cs
    if c = Char.ofNat 10 then [] :: r
    else
      match r with
      | [] => [[c]]
      | l :: ls => (c :: l) :: ls

/-- Number of lines of `s` that are a `blacklist` or an `alias`
directive. -/
def directiveLineCount (s : String) : Nat :=
  ((splitOnNl s.data).filter
    (fun l => "blacklist ".data.isPrefixOf l || "alias ".data.isPrefixOf l)).length

/-- A driver query answering `NotFound`: nothing is bound. -/
def noDriver : Except IOError String := Except.error ⟨IOErrorKind.notFound, "no driver"⟩

/-- Sample integrated-GPU function (the end-to-end scenario of the spec). -/
def sampleIntelFunc : PciDevice :=
  { id := "0000:00:02.0", classCode := Except.ok 0x030000, vendor := Except.ok 0x8086,
    nodeExists := true, driver := noDriver, unbindErr := none, removeErr := none }

/-- Sample discrete-GPU core function. -/
def sampleNvidiaFunc0 : PciDevice :=
  { id := "0000:01:00.0", classCode := Except.ok 0x030000, vendor := Except.ok 0x10DE,
    nodeExists := true, driver := noDriver, unbindErr := none, removeErr := none }

/-- Sample discrete-GPU audio sibling function (class top byte 0x04). -/
def sampleNvidiaFunc1 : PciDevice :=
  { id := "0000:01:00.1", classCode := Except.ok 0x040300, vendor := Except.ok 0x10DE,
    nodeExists := true, driver := noDriver, unbindErr := none, removeErr := none }

/-- Sample switchable subsystem: one Intel device, one NVIDIA device with
two sibling functions. -/
def sampleGraphics : Graphics :=
  { amd := [],
    intel := [GraphicsDevice.new "0000:00:02.0" [sampleIntelFunc]],
    nvidia := [GraphicsDevice.new "0000:01:00.0" [sampleNvidiaFunc0, sampleNvidiaFunc1]],
    other := [] }

/-- Sample non-switchable subsystem: the NVIDIA list is empty. -/
def soloIntelGraphics : Graphics :=
  { amd := [],
    intel := [GraphicsDevice.new "0000:00:02.0" [sampleIntelFunc]],
    nvidia := [],
    other := [] }

/-- A sample world in which every file and command operation succeeds. -/
def sampleWorld : World :=
  { modprobe := some "previous content", openErr := none, writeErr := none,
    systemctl := Except.ok 0, initramfs := Except.ok 0 }

set_option maxRecDepth 40000

theorem switchable_or_fail_ok (g : Graphics) (h : g.can_switch = true) :
    g.switchable_or_fail = Except.ok () := by
  simp [Graphics.switchable_or_fail, h]

theorem switchable_or_fail_err (g : Graphics) (h : g.can_switch = false) :
    g.switchable_or_fail = Except.error GraphicsDeviceError.NotSwitchable := by
  simp [Graphics.switchable_or_fail, h]

/-- C2: whenever `can_switch()` is false, `set_vendor`, `set_power` and
`get_power` all fail with the `NotSwitchable` error, leave every piece of
state untouched, and issue no effect at all (no file write, no external
command, no rescan, no unbind or remove write). -/
theorem c2_not_switchable_no_mutation (g : Graphics) (w : World) (re : Option IOError)
    (p : Bool) (v : String) (h : g.can_switch = false) :
    g.set_vendor w v = (Except.error GraphicsDeviceError.NotSwitchable, w, []) ∧
    g.set_power re p = (Except.error GraphicsDeviceError.NotSwitchable, g, []) ∧
    g.get_power = Except.error GraphicsDeviceError.NotSwitchable := by
  refine ⟨?_, ?_, ?_⟩ <;>
    simp [Graphics.set_vendor, Graphics.set_power, Graphics.get_power,
      switchable_or_fail_err g h]

/-- Witness for C2 on a subsystem whose NVIDIA list is empty. -/
theorem c2_witness :
    soloIntelGraphics.set_vendor sampleWorld "nvidia" =
      (Except.error GraphicsDeviceError.NotSwitchable, sampleWorld, []) ∧
    soloIntelGraphics.set_power none false =
      (Except.error GraphicsDeviceError.NotSwitchable, soloIntelGraphics, []) ∧
    soloIntelGraphics.get_power = Except.error GraphicsDeviceError.NotSwitchable :=
  c2_not_switchable_no_mutation soloIntelGraphics sampleWorld none false "nvidia" (by decide)

/-- C9: `get_vendor` is not gated by `can_switch`: even on a
non-switchable subsystem it succeeds whenever the kernel module list is
readable, its only failure mode is `ModulesFetch`, while `get_power` on
the same subsystem fails with `NotSwitchable`. -/
theorem c9_get_vendor_ungated (g : Graphics) (modules : Except IOError (List String))
    (h : g.can_switch = false) :
    (∀ l, modules = Except.ok l → ∃ v, g.get_vendor modules = Except.ok v) ∧
    (∀ e, modules = Except.error e →
      g.get_vendor modules = Except.error (GraphicsDeviceError.ModulesFetch e)) ∧
    g.get_power = Except.error GraphicsDeviceError.NotSwitchable := by
  refine ⟨?_, ?_, ?_⟩
  · rintro l rfl
    exact ⟨_, rfl⟩
  · rintro e rfl
    rfl
  · simp [Graphics.get_power, switchable_or_fail_err g h]

/-- Witness for C9 on a subsystem whose NVIDIA list is empty. -/
theorem c9_witness :
    (∀ l, (Except.ok ["ext4"] : Except IOError (List String)) = Except.ok l →
      ∃ v, soloIntelGraphics.get_vendor (Except.ok ["ext4"]) = Except.ok v) ∧
    (∀ e, (Except.ok ["ext4"] : Except IOError (List String)) = Except.error e →
      soloIntelGraphics.get_vendor (Except.ok ["ext4"]) =
        Except.error (GraphicsDeviceError.ModulesFetch e)) ∧
    soloIntelGraphics.get_power = Except.error GraphicsDeviceError.NotSwitchable :=
  c9_get_vendor_ungated soloIntelGraphics (Except.ok ["ext4"]) (by decide)

/-- C8: `auto_power` is `set_power(true)` when `get_vendor` reports
`nvidia` and `set_power(false)` when it reports `intel`; `get_vendor`
reports `nvidia` exactly when a loaded module is named `nouveau` or
`nvidia`, and `intel` otherwise. -/
theorem c8_auto_power_equiv (g : Graphics) (modules : Except IOError (List String))
    (re : Option IOError) :
    (g.get_vendor modules = Except.ok "nvidia" → g.auto_power modules re = g.set_power re true) ∧
    (g.get_vendor modules = Except.ok "intel" → g.auto_power modules re = g.set_power re false) ∧
    (∀ l, modules = Except.ok l →
      (g.get_vendor modules = Except.ok "nvidia" ↔
        l.any (fun m => m == "nouveau" || m == "nvidia") = true) ∧
      (g.get_vendor modules = Except.ok "intel" ↔
        l.any (fun m => m == "nouveau" || m == "nvidia") = false)) := by
  refine ⟨?_, ?_, ?_⟩
  · intro h
    simp [Graphics.auto_power, h]
  · intro h
    simp [Graphics.auto_power, h]
  · rintro l rfl
    cases hany : l.any (fun m => m == "nouveau" || m == "nvidia") <;>
      simp [Graphics.get_vendor, hany]

/-- Witness for C8: with the `nvidia` module loaded, `auto_power` is
exactly `set_power(true)`. -/
theorem c8_witness :
    sampleGraphics.auto_power (Except.ok ["ext4", "nvidia"]) none =
      sampleGraphics.set_power none true :=
  (c8_auto_power_equiv sampleGraphics (Except.ok ["ext4", "nvidia"]) none).1 (by decide)

/-- C10: `set_vendor` validates nothing: any vendor string other than
exactly `nvidia` behaves exactly like `intel` (Intel blacklist template is
written, the fallback service is disabled), and an unrecognized name is
never an error by itself. -/
theorem c10_set_vendor_any_string (g : Graphics) (w : World) (v : String)
    (hv : v ≠ "nvidia") :
    g.set_vendor w v = g.set_vendor w "intel" ∧
    (g.can_switch = true → w.openErr = none → w.writeErr = none →
      ((g.set_vendor w v).2.1.modprobe = some MODPROBE_INTEL ∧
        ((g.set_vendor w v).2.2.contains
          (Effect.runCommand "systemctl" ["disable", "nvidia-fallback.service"])) = true)) := by
  have hbeq : (v == "nvidia") = false := by
    simp [hv]
  have heq : g.set_vendor w v = g.set_vendor w "intel" := by
    simp only [Graphics.set_vendor, hbeq]
    rfl
  refine ⟨heq, fun hsw hopen hwrite => ?_⟩
  rw [heq]
  simp only [Graphics.set_vendor, switchable_or_fail_ok g hsw, hopen, hwrite]
  rcases hsc : w.systemctl with why | st
  · simp
  · rcases hin : w.initramfs with why2 | st2
    · simp
    · by_cases hz : (st2 == 0) = true <;> simp [hz]

/-- Witness for C10 at the unrecognized vendor string `amd`. -/
theorem c10_witness :
    sampleGraphics.set_vendor sampleWorld "amd" =
      sampleGraphics.set_vendor sampleWorld "intel" ∧
    ((sampleGraphics.set_vendor sampleWorld "amd").2.1.modprobe = some MODPROBE_INTEL ∧
      ((sampleGraphics.set_vendor sampleWorld "amd").2.2.contains
        (Effect.runCommand "systemctl" ["disable", "nvidia-fallback.service"])) = true) :=
  ⟨(c10_set_vendor_any_string sampleGraphics sampleWorld "amd" (by decide)).1,
    (c10_set_vendor_any_string sampleGraphics sampleWorld "amd" (by decide)).2
      (by decide) rfl rfl⟩

/-- On a switchable subsystem with a working open and write, `set_vendor`
always leaves the modprobe file holding exactly the template selected by
the vendor string, regardless of the previous file content and of the
outcome of the two external commands. -/
theorem set_vendor_world (g : Graphics) (w : World) (v : String)
    (hsw : g.can_switch = true) (hopen : w.openErr = none) (hwrite : w.writeErr = none) :
    (g.set_vendor w v).2.1 =
      { w with modprobe := some (if v == "nvidia" then MODPROBE_NVIDIA else MODPROBE_INTEL) } := by
  simp only [Graphics.set_vendor, switchable_or_fail_ok g hsw, hopen, hwrite]
  rcases hsc : w.systemctl with why | st
  · simp
  · rcases hin : w.initramfs with why2 | st2
    · simp
    · by_cases hz : (st2 == 0) = true <;> simp [hz]

/-- C4 counterexample: after `set_vendor("nvidia")` then
`set_vendor("intel")` the modprobe file does hold exactly the Intel
template, but that template carries ten blacklist/alias directive lines
(five `blacklist` plus five `alias`), not six as the claim states. -/
theorem c4_counterexample_six_directive_lines :
    ((sampleGraphics.set_vendor ((sampleGraphics.set_vendor sampleWorld "nvidia").2.1)
        "intel").2.1).modprobe = some MODPROBE_INTEL ∧
    directiveLineCount MODPROBE_INTEL ≠ 6 := by
  constructor
  · decide
  · decide

/-- C4 (amended): after `set_vendor("nvidia")` then `set_vendor("intel")`
the modprobe file contains exactly the Intel template bytes — the
generated-file header plus ten blacklist/alias directive lines — and the
file is overwritten wholesale on every call: the resulting content never
depends on the previous content. -/
theorem c4_modprobe_intel_after_nvidia (g : Graphics) (w : World)
    (hsw : g.can_switch = true) (hopen : w.openErr = none) (hwrite : w.writeErr = none) :
    directiveLineCount MODPROBE_INTEL = 10 ∧
    ((g.set_vendor ((g.set_vendor w "nvidia").2.1) "intel").2.1).modprobe =
      some MODPROBE_INTEL ∧
    (∀ c v, ((g.set_vendor { w with modprobe := c } v).2.1).modprobe =
      some (if v == "nvidia" then MODPROBE_NVIDIA else MODPROBE_INTEL)) := by
  refine ⟨by decide, ?_, ?_⟩
  · rw [set_vendor_world g w "nvidia" hsw hopen hwrite]
    rw [set_vendor_world g _ "intel" hsw (by simpa using hopen) (by simpa using hwrite)]
    simp
  · intro c v
    rw [set_vendor_world g _ v hsw (by simpa using hopen) (by simpa using hwrite)]

/-- Witness for the amended C4 on the sample subsystem and world. -/
theorem c4_witness :
    directiveLineCount MODPROBE_INTEL = 10 ∧
    ((sampleGraphics.set_vendor ((sampleGraphics.set_vendor sampleWorld "nvidia").2.1)
        "intel").2.1).modprobe = some MODPROBE_INTEL ∧
    (∀ c v, ((sampleGraphics.set_vendor { sampleWorld with modprobe := c } v).2.1).modprobe =
      some (if v == "nvidia" then MODPROBE_NVIDIA else MODPROBE_INTEL)) :=
  c4_modprobe_intel_after_nvidia sampleGraphics sampleWorld (by decide) rfl rfl

/-- A PCI device whose class-code read fails. -/
def badClassFunc : PciDevice :=
  { id := "0000:02:00.0", classCode := Except.error ⟨IOErrorKind.other, "unreadable class"⟩,
    vendor := Except.ok 0x10DE, nodeExists := true, driver := noDriver,
    unbindErr := none, removeErr := none }

/-- A display-class PCI device whose vendor-id read fails. -/
def badVendorFunc : PciDevice :=
  { id := "0000:03:00.0", classCode := Except.ok 0x030000,
    vendor := Except.error ⟨IOErrorKind.other, "unreadable vendor"⟩, nodeExists := true,
    driver := noDriver, unbindErr := none, removeErr := none }

/-- C5 counterexample: a device whose class code cannot be read is not
silently dropped — the whole construction fails with that I/O error
(`dev.class()?` propagates), so it never succeeds as the claim states.
The same happens for a display-class device whose vendor id cannot be
read. -/
theorem c5_counterexample_construction_fails :
    Graphics.new none (Except.ok [badClassFunc, sampleIntelFunc]) =
      Except.error ⟨IOErrorKind.other, "unreadable class"⟩ ∧
    (¬ ∃ g, Graphics.new none (Except.ok [badClassFunc, sampleIntelFunc]) = Except.ok g) ∧
    Graphics.new none (Except.ok [badVendorFunc, sampleIntelFunc]) =
      Except.error ⟨IOErrorKind.other, "unreadable vendor"⟩ := by
  refine ⟨by decide, ?_, by decide⟩
  rintro ⟨g, hg⟩
  rw [show Graphics.new none (Except.ok [badClassFunc, sampleIntelFunc]) =
    Except.error ⟨IOErrorKind.other, "unreadable class"⟩ from by decide] at hg
  exact absurd hg (by simp)

/-- C5 (amended): a PCI device whose class code cannot be read — or whose
class is the display class but whose vendor id cannot be read — aborts
the whole construction with that I/O error; the device is never silently
dropped and construction does not succeed partially. -/
theorem c5_unreadable_read_fails_construction (d : PciDevice) (rest : List PciDevice)
    (e : IOError) :
    (d.classCode = Except.error e →
      Graphics.new none (Except.ok (d :: rest)) = Except.error e) ∧
    (∀ c, d.classCode = Except.ok c → ((c >>> 16) &&& 0xFF == 0x03) = true →
      d.vendor = Except.error e →
      Graphics.new none (Except.ok (d :: rest)) = Except.error e) := by
  constructor
  · intro hc
    simp [Graphics.new, classifyGo, hc]
  · intro c hc hdisp hv
    simp [Graphics.new, classifyGo, hc, hdisp, hv]

/-- Witness for the amended C5 at a concrete unreadable-class device. -/
theorem c5_witness :
    Graphics.new none (Except.ok [badClassFunc, sampleIntelFunc]) =
      Except.error ⟨IOErrorKind.other, "unreadable class"⟩ :=
  (c5_unreadable_read_fails_construction badClassFunc [sampleIntelFunc]
    ⟨IOErrorKind.other, "unreadable class"⟩).1 rfl

/-- C3: `remove()` walks the functions in order.  A function whose node
exists and whose driver query succeeds aborts immediately with
`DeviceInUse` naming that function and that driver, and no removal write
is issued for it; a function whose driver query fails with not-found has
its device-removal write issued, a failure of which is a `Remove` error
tagged with the device id; a function whose node does not exist is
skipped without error, the iteration continuing with the rest. -/
theorem c3_remove_function_cases (devId : String) (f : PciDevice) (fs : List PciDevice) :
    (∀ drv, f.nodeExists = true → f.driver = Except.ok drv →
      GraphicsDevice.remove ⟨devId, f :: fs⟩ =
        (Except.error (GraphicsDeviceError.DeviceInUse f.id drv), ⟨devId, f :: fs⟩, [])) ∧
    (∀ why, f.nodeExists = true → f.driver = Except.error why →
      why.kind = IOErrorKind.notFound →
      (∀ e, f.removeErr = some e →
        GraphicsDevice.remove ⟨devId, f :: fs⟩ =
          (Except.error (GraphicsDeviceError.Remove devId e), ⟨devId, f :: fs⟩,
            [Effect.removeWrite f.id])) ∧
      (f.removeErr = none →
        ∀ r fs2 tr, runSeq (removeStep devId) fs = (r, fs2, tr) →
          GraphicsDevice.remove ⟨devId, f :: fs⟩ =
            (r, ⟨devId, f.powerOff :: fs2⟩, Effect.removeWrite f.id :: tr))) ∧
    (f.nodeExists = false →
      ∀ r fs2 tr, runSeq (removeStep devId) fs = (r, fs2, tr) →
        GraphicsDevice.remove ⟨devId, f :: fs⟩ = (r, ⟨devId, f :: fs2⟩, tr)) := by
  refine ⟨?_, ?_, ?_⟩
  · intro drv hne hdr
    simp [GraphicsDevice.remove, runSeq, removeStep, hne, hdr]
  · intro why hne hdr hk
    constructor
    · intro e hre
      simp [GraphicsDevice.remove, runSeq, removeStep, hne, hdr, hk, hre]
    · intro hre r fs2 tr hrest
      simp [GraphicsDevice.remove, runSeq, removeStep, hne, hdr, hk, hre, hrest,
        PciDevice.powerOff]
  · intro hne r fs2 tr hrest
    simp [GraphicsDevice.remove, runSeq, removeStep, hne, hrest]

/-- Discrete-GPU function still bound to the proprietary driver. -/
def boundNvidiaFunc : PciDevice :=
  { id := "0000:01:00.0", classCode := Except.ok 0x030000, vendor := Except.ok 0x10DE,
    nodeExists := true, driver := Except.ok "nvidia", unbindErr := none, removeErr := none }

/-- Witness for C3: removing a device whose first function is still
driver-bound fails with `DeviceInUse` and changes nothing. -/
theorem c3_witness :
    GraphicsDevice.remove ⟨"0000:01:00.0", [boundNvidiaFunc]⟩ =
      (Except.error (GraphicsDeviceError.DeviceInUse "0000:01:00.0" "nvidia"),
        ⟨"0000:01:00.0", [boundNvidiaFunc]⟩, []) :=
  (c3_remove_function_cases "0000:01:00.0" boundNvidiaFunc []).1 "nvidia" rfl rfl

theorem unbindStep_trace_unbind (devId : String) (f : PciDevice) :
    ((unbindStep devId f).2.2).all Effect.isUnbindWrite = true := by
  obtain ⟨i, cc, vd, ne, dr, ue, re⟩ := f
  rcases ne with _ | _ <;>
    rcases dr with ⟨⟨_ | _, m⟩⟩ | d <;>
      rcases ue with _ | u <;>
        simp [unbindStep, Effect.isUnbindWrite]

theorem removeStep_trace_remove (devId : String) (f : PciDevice) :
    ((removeStep devId f).2.2).all Effect.isRemoveWrite = true := by
  obtain ⟨i, cc, vd, ne, dr, ue, re⟩ := f
  rcases ne with _ | _ <;>
    rcases dr with ⟨⟨_ | _, m⟩⟩ | d <;>
      rcases re with _ | u <;>
        simp [removeStep, Effect.isRemoveWrite]

theorem runSeq_trace_all {α : Type} (p : Effect → Bool)
    (step : α → Except GraphicsDeviceError Unit × α × List Effect)
    (hstep : ∀ x, ((step x).2.2).all p = true) (xs : List α) :
    (((runSeq step xs).2.2).all p) = true := by
  induction xs with
  | nil => simp [runSeq]
  | cons x xs ih =>
    have hx := hstep x
    simp only [runSeq]
    rcases hsx : step x with ⟨r, x2, tr⟩
    rw [hsx] at hx
    rcases r with e | u
    · simpa using hx
    · rcases hrs : runSeq step xs with ⟨r2, xs2, tr2⟩
      rw [hrs] at ih
      simp only at hx ih
      simp [List.all_append, hx, ih]

theorem unbind_trace_unbind (d : GraphicsDevice) :
    ((d.unbind).2.2).all Effect.isUnbindWrite = true := by
  have h := runSeq_trace_all Effect.isUnbindWrite (unbindStep d.id)
    (unbindStep_trace_unbind d.id) d.functions
  unfold GraphicsDevice.unbind
  rcases hrs : runSeq (unbindStep d.id) d.functions with ⟨r, fs, tr⟩
  rw [hrs] at h
  simpa using h

theorem remove_trace_remove (d : GraphicsDevice) :
    ((d.remove).2.2).all Effect.isRemoveWrite = true := by
  have h := runSeq_trace_all Effect.isRemoveWrite (removeStep d.id)
    (removeStep_trace_remove d.id) d.functions
  unfold GraphicsDevice.remove
  rcases hrs : runSeq (removeStep d.id) d.functions with ⟨r, fs, tr⟩
  rw [hrs] at h
  simpa using h

theorem runSeq_unbind_trace (ds : List GraphicsDevice) :
    (((runSeq GraphicsDevice.unbind ds).2.2).all Effect.isUnbindWrite) = true :=
  runSeq_trace_all Effect.isUnbindWrite GraphicsDevice.unbind unbind_trace_unbind ds

theorem runSeq_remove_trace (ds : List GraphicsDevice) :
    (((runSeq GraphicsDevice.remove ds).2.2).all Effect.isRemoveWrite) = true :=
  runSeq_trace_all Effect.isRemoveWrite GraphicsDevice.remove remove_trace_remove ds

/-- C1: on a switchable subsystem, `set_power(false)` runs in two phases:
the unbind of every NVIDIA device first, then the remove of every NVIDIA
device.  If the unbind phase fails, that error is returned, the effect
trace holds only unbind writes (so no remove was attempted on any
device), and the later devices stay untouched; if the unbind phase
succeeds, the remove phase runs on the resulting state, the first error
of that phase (if any) is returned, and the trace is all the unbind
writes followed by the remove writes. -/
theorem c1_set_power_off_two_phase (g : Graphics) (re : Option IOError)
    (h : g.can_switch = true) :
    (∀ e nv tr, runSeq GraphicsDevice.unbind g.nvidia = (Except.error e, nv, tr) →
      g.set_power re false = (Except.error e, { g with nvidia := nv }, tr) ∧
      tr.all Effect.isUnbindWrite = true) ∧
    (∀ nv tr, runSeq GraphicsDevice.unbind g.nvidia = (Except.ok (), nv, tr) →
      ∀ r2 nv2 tr2, runSeq GraphicsDevice.remove nv = (r2, nv2, tr2) →
        g.set_power re false = (r2, { g with nvidia := nv2 }, tr ++ tr2) ∧
        tr.all Effect.isUnbindWrite = true ∧ tr2.all Effect.isRemoveWrite = true) := by
  constructor
  · intro e nv tr hub
    have htr := runSeq_unbind_trace g.nvidia
    rw [hub] at htr
    refine ⟨?_, by simpa using htr⟩
    simp [Graphics.set_power, switchable_or_fail_ok g h, hub]
  · intro nv tr hub r2 nv2 tr2 hrm
    have htr := runSeq_unbind_trace g.nvidia
    rw [hub] at htr
    have htr2 := runSeq_remove_trace nv
    rw [hrm] at htr2
    refine ⟨?_, by simpa using htr, by simpa using htr2⟩
    simp [Graphics.set_power, switchable_or_fail_ok g h, hub, hrm]

/-- Discrete-GPU function whose driver unbind write is rejected. -/
def failUnbindFunc : PciDevice :=
  { id := "0000:01:00.0", classCode := Except.ok 0x030000, vendor := Except.ok 0x10DE,
    nodeExists := true, driver := Except.ok "nvidia",
    unbindErr := some ⟨IOErrorKind.other, "busy"⟩, removeErr := none }

/-- A switchable subsystem whose only NVIDIA device fails to unbind. -/
def failUnbindGraphics : Graphics :=
  { amd := [],
    intel := [GraphicsDevice.new "0000:00:02.0" [sampleIntelFunc]],
    nvidia := [GraphicsDevice.new "0000:01:00.0" [failUnbindFunc]],
    other := [] }

/-- Witness for C1: when an unbind fails, `set_power(false)` returns that
`Unbind` error and the trace holds only unbind writes — no remove was
attempted. -/
theorem c1_witness :
    failUnbindGraphics.set_power none false =
      (Except.error (GraphicsDeviceError.Unbind "0000:01:00.0" "nvidia"
          ⟨IOErrorKind.other, "busy"⟩),
        failUnbindGraphics, [Effect.unbindWrite "nvidia" "0000:01:00.0"]) ∧
    ([Effect.unbindWrite "nvidia" "0000:01:00.0"].all Effect.isUnbindWrite) = true :=
  (c1_set_power_off_two_phase failUnbindGraphics none (by decide)).1
    (GraphicsDeviceError.Unbind "0000:01:00.0" "nvidia" ⟨IOErrorKind.other, "busy"⟩)
    failUnbindGraphics.nvidia
    [Effect.unbindWrite "nvidia" "0000:01:00.0"]
    (by decide)

/-- The class-code read succeeds and its top byte is the display class. -/
def isDisplayDev (d : PciDevice) : Bool :=
  match d.classCode with
  | Except.ok c => (c >>> 16) &&& 0xFF == 0x03
  | Except.error _ => false

/-- The vendor-id read succeeds with the given value. -/
def vendorIs (n : Nat) (d : PciDevice) : Bool :=
  match d.vendor with
  | Except.ok v => v == n
  | Except.error _ => false

def isAmdGraphics (d : PciDevice) : Bool := isDisplayDev d && vendorIs 0x1002 d

def isNvidiaGraphics (d : PciDevice) : Bool := isDisplayDev d && vendorIs 0x10DE d

def isIntelGraphics (d : PciDevice) : Bool := isDisplayDev d && vendorIs 0x8086 d

def isOtherGraphics (d : PciDevice) : Bool :=
  isDisplayDev d && !vendorIs 0x1002 d && !vendorIs 0x10DE d && !vendorIs 0x8086 d

/-- The Graphics Device built for a classified PCI device. -/
def mkGraphicsDevice (all : List PciDevice) (d : PciDevice) : GraphicsDevice :=
  GraphicsDevice.new d.id (functionsOf all d)

theorem classifyGo_ok (all : List PciDevice) (devs : List PciDevice) :
    ∀ (g0 g : Graphics), classifyGo all devs g0 = Except.ok g →
      g.amd = g0.amd ++ (devs.filter isAmdGraphics).map (mkGraphicsDevice all) ∧
      g.intel = g0.intel ++ (devs.filter isIntelGraphics).map (mkGraphicsDevice all) ∧
      g.nvidia = g0.nvidia ++ (devs.filter isNvidiaGraphics).map (mkGraphicsDevice all) ∧
      g.other = g0.other ++ (devs.filter isOtherGraphics).map (mkGraphicsDevice all) := by
  induction devs with
  | nil =>
    intro g0 g h
    simp only [classifyGo] at h
    cases h
    simp
  | cons d rest ih =>
    intro g0 g h
    simp only [classifyGo] at h
    rcases hc : d.classCode with e | c
    · rw [hc] at h
      exact absurd h (by simp)
    · rw [hc] at h
      simp only [] at h
      by_cases hdisp : ((c >>> 16) &&& 0xFF == 0x03) = true
      · rw [if_pos hdisp] at h
        rcases hv : d.vendor with e | v
        · rw [hv] at h
          exact absurd h (by simp)
        · rw [hv] at h
          simp only [] at h
          have hdd : isDisplayDev d = true := by
            simp [isDisplayDev, hc, hdisp]
          by_cases h1 : (v == 0x1002) = true
          · rw [if_pos h1] at h
            have hveq : v = 0x1002 := by simpa using h1
            subst hveq
            obtain ⟨ha, hi, hn, ho⟩ := ih _ _ h
            refine ⟨?_, ?_, ?_, ?_⟩ <;>
              simp [ha, hi, hn, ho, List.filter_cons, isAmdGraphics, isNvidiaGraphics,
                isIntelGraphics, isOtherGraphics, vendorIs, hv, hdd, mkGraphicsDevice]
          · rw [if_neg h1] at h
            by_cases h2 : (v == 0x10DE) = true
            · rw [if_pos h2] at h
              have hveq : v = 0x10DE := by simpa using h2
              subst hveq
              obtain ⟨ha, hi, hn, ho⟩ := ih _ _ h
              refine ⟨?_, ?_, ?_, ?_⟩ <;>
                simp [ha, hi, hn, ho, List.filter_cons, isAmdGraphics, isNvidiaGraphics,
                  isIntelGraphics, isOtherGraphics, vendorIs, hv, hdd, mkGraphicsDevice]
            · rw [if_neg h2] at h
              by_cases h3 : (v == 0x8086) = true
              · rw [if_pos h3] at h
                have hveq : v = 0x8086 := by simpa using h3
                subst hveq
                obtain ⟨ha, hi, hn, ho⟩ := ih _ _ h
                refine ⟨?_, ?_, ?_, ?_⟩ <;>
                  simp [ha, hi, hn, ho, List.filter_cons, isAmdGraphics, isNvidiaGraphics,
                    isIntelGraphics, isOtherGraphics, vendorIs, hv, hdd, mkGraphicsDevice]
              · rw [if_neg h3] at h
                obtain ⟨ha, hi, hn, ho⟩ := ih _ _ h
                have hb1 : (v == 0x1002) = false := by simpa using h1
                have hb2 : (v == 0x10DE) = false := by simpa using h2
                have hb3 : (v == 0x8086) = false := by simpa using h3
                refine ⟨?_, ?_, ?_, ?_⟩ <;>
                  simp [ha, hi, hn, ho, List.filter_cons, isAmdGraphics, isNvidiaGraphics,
                    isIntelGraphics, isOtherGraphics, vendorIs, hv, hdd, hb1, hb2, hb3,
                    mkGraphicsDevice]
      · rw [if_neg hdisp] at h
        have hdd : isDisplayDev d = false := by
          simp only [isDisplayDev, hc]
          simpa using hdisp
        obtain ⟨ha, hi, hn, ho⟩ := ih _ _ h
        refine ⟨?_, ?_, ?_, ?_⟩ <;>
          simp [ha, hi, hn, ho, List.filter_cons, isAmdGraphics, isNvidiaGraphics,
            isIntelGraphics, isOtherGraphics, hdd]

/-- C6: on a successful construction, each vendor list is exactly the
display-class devices (class top byte 0x03) of the matching vendor, in
enumeration order; at the predicate level every display-class device
matches exactly one of the four buckets (AMD 0x1002, NVIDIA 0x10DE,
Intel 0x8086, Other anything else) and a device of any other class
matches none, so it enters no list. -/
theorem c6_classification_partition (devs : List PciDevice) (g : Graphics)
    (h : Graphics.new none (Except.ok devs) = Except.ok g) :
    (g.amd = (devs.filter isAmdGraphics).map (mkGraphicsDevice devs) ∧
      g.nvidia = (devs.filter isNvidiaGraphics).map (mkGraphicsDevice devs) ∧
      g.intel = (devs.filter isIntelGraphics).map (mkGraphicsDevice devs) ∧
      g.other = (devs.filter isOtherGraphics).map (mkGraphicsDevice devs)) ∧
    (∀ d : PciDevice, isDisplayDev d = true →
      (isAmdGraphics d).toNat + (isNvidiaGraphics d).toNat +
        (isIntelGraphics d).toNat + (isOtherGraphics d).toNat = 1) ∧
    (∀ d : PciDevice, isDisplayDev d = false →
      isAmdGraphics d = false ∧ isNvidiaGraphics d = false ∧
      isIntelGraphics d = false ∧ isOtherGraphics d = false) := by
  refine ⟨?_, ?_, ?_⟩
  · simp only [Graphics.new] at h
    obtain ⟨ha, hi, hn, ho⟩ := classifyGo_ok devs devs _ g h
    simp only [ha, hi, hn, ho]
    simp
  · intro d hd
    rcases hv : d.vendor with e | v
    · simp [isAmdGraphics, isNvidiaGraphics, isIntelGraphics, isOtherGraphics, vendorIs,
        hv, hd]
    · by_cases h1 : v = 0x1002
      · subst h1
        simp [isAmdGraphics, isNvidiaGraphics, isIntelGraphics, isOtherGraphics, vendorIs,
          hv, hd]
      · by_cases h2 : v = 0x10DE
        · subst h2
          simp [isAmdGraphics, isNvidiaGraphics, isIntelGraphics, isOtherGraphics, vendorIs,
            hv, hd]
        · by_cases h3 : v = 0x8086
          · subst h3
            simp [isAmdGraphics, isNvidiaGraphics, isIntelGraphics, isOtherGraphics,
              vendorIs, hv, hd]
          · have b1 : (v == 0x1002) = false := by simpa using h1
            have b2 : (v == 0x10DE) = false := by simpa using h2
            have b3 : (v == 0x8086) = false := by simpa using h3
            simp [isAmdGraphics, isNvidiaGraphics, isIntelGraphics, isOtherGraphics,
              vendorIs, hv, hd, b1, b2, b3]
  · intro d hd
    simp [isAmdGraphics, isNvidiaGraphics, isIntelGraphics, isOtherGraphics, hd]

/-- Witness for C6 on the three-device sample enumeration. -/
theorem c6_witness :
    (sampleGraphics.amd =
        (([sampleIntelFunc, sampleNvidiaFunc0, sampleNvidiaFunc1].filter isAmdGraphics).map
          (mkGraphicsDevice [sampleIntelFunc, sampleNvidiaFunc0, sampleNvidiaFunc1])) ∧
      sampleGraphics.nvidia =
        (([sampleIntelFunc, sampleNvidiaFunc0, sampleNvidiaFunc1].filter isNvidiaGraphics).map
          (mkGraphicsDevice [sampleIntelFunc, sampleNvidiaFunc0, sampleNvidiaFunc1])) ∧
      sampleGraphics.intel =
        (([sampleIntelFunc, sampleNvidiaFunc0, sampleNvidiaFunc1].filter isIntelGraphics).map
          (mkGraphicsDevice [sampleIntelFunc, sampleNvidiaFunc0, sampleNvidiaFunc1])) ∧
      sampleGraphics.other =
        (([sampleIntelFunc, sampleNvidiaFunc0, sampleNvidiaFunc1].filter isOtherGraphics).map
          (mkGraphicsDevice [sampleIntelFunc, sampleNvidiaFunc0, sampleNvidiaFunc1]))) ∧
    (∀ d : PciDevice, isDisplayDev d = true →
      (isAmdGraphics d).toNat + (isNvidiaGraphics d).toNat +
        (isIntelGraphics d).toNat + (isOtherGraphics d).toNat = 1) ∧
    (∀ d : PciDevice, isDisplayDev d = false →
      isAmdGraphics d = false ∧ isNvidiaGraphics d = false ∧
      isIntelGraphics d = false ∧ isOtherGraphics d = false) :=
  c6_classification_partition [sampleIntelFunc, sampleNvidiaFunc0, sampleNvidiaFunc1]
    sampleGraphics (by decide)

theorem unbindStep_noop (devId : String) (f : PciDevice) (h : f.driverNotFound = true) :
    unbindStep devId f = (Except.ok (), f, []) := by
  rcases hdr : f.driver with ⟨wk, wm⟩ | dv
  · simp only [PciDevice.driverNotFound, hdr] at h
    cases wk
    · cases hne : f.nodeExists <;> simp [unbindStep, hdr, hne]
    · simp at h
  · simp only [PciDevice.driverNotFound, hdr] at h
    simp at h

theorem removeStep_skip (devId : String) (f : PciDevice) (h : f.nodeExists = false) :
    removeStep devId f = (Except.ok (), f, []) := by
  simp [removeStep, h]

theorem removeStep_unbound (devId : String) (f : PciDevice)
    (hd : f.driverNotFound = true) (hr : f.removeErr = none) :
    removeStep devId f =
      (Except.ok (), f.powerOff,
        if f.nodeExists then [Effect.removeWrite f.id] else []) := by
  obtain ⟨i, cc, vd, ne, dr, ue, re⟩ := f
  simp only [PciDevice.driverNotFound] at hd
  simp only at hr
  rcases dr with ⟨wk, wm⟩ | dv
  · simp only at hd
    cases wk
    · subst hr
      cases ne <;> simp [removeStep, PciDevice.powerOff]
    · simp at hd
  · simp at hd

theorem runSeq_unbind_noop_funcs (devId : String) (fs : List PciDevice)
    (h : ∀ f ∈ fs, f.driverNotFound = true) :
    runSeq (unbindStep devId) fs = (Except.ok (), fs, []) := by
  induction fs with
  | nil => simp [runSeq]
  | cons f fs ih =>
    have hf := h f (by simp)
    have ih2 := ih (fun x hx => h x (by simp [hx]))
    simp [runSeq, unbindStep_noop devId f hf, ih2]

theorem runSeq_remove_unbound_funcs (devId : String) (fs : List PciDevice)
    (h : ∀ f ∈ fs, f.driverNotFound = true ∧ f.removeErr = none) :
    runSeq (removeStep devId) fs =
      (Except.ok (), fs.map PciDevice.powerOff,
        (fs.filter (fun f => f.nodeExists)).map (fun f => Effect.removeWrite f.id)) := by
  induction fs with
  | nil => simp [runSeq]
  | cons f fs ih =>
    obtain ⟨hd, hr⟩ := h f (by simp)
    have ih2 := ih (fun x hx => h x (by simp [hx]))
    cases hne : f.nodeExists <;>
      simp [runSeq, removeStep_unbound devId f hd hr, ih2, hne, List.filter_cons]

theorem runSeq_remove_absent_funcs (devId : String) (fs : List PciDevice)
    (h : ∀ f ∈ fs, f.nodeExists = false) :
    runSeq (removeStep devId) fs = (Except.ok (), fs, []) := by
  induction fs with
  | nil => simp [runSeq]
  | cons f fs ih =>
    have hf := h f (by simp)
    have ih2 := ih (fun x hx => h x (by simp [hx]))
    simp [runSeq, removeStep_skip devId f hf, ih2]

theorem unbind_noop (d : GraphicsDevice) (h : ∀ f ∈ d.functions, f.driverNotFound = true) :
    d.unbind = (Except.ok (), d, []) := by
  unfold GraphicsDevice.unbind
  rw [runSeq_unbind_noop_funcs d.id d.functions h]

theorem remove_unbound (d : GraphicsDevice)
    (h : ∀ f ∈ d.functions, f.driverNotFound = true ∧ f.removeErr = none) :
    d.remove = (Except.ok (), d.powerOff,
      (d.functions.filter (fun f => f.nodeExists)).map (fun f => Effect.removeWrite f.id)) := by
  unfold GraphicsDevice.remove
  rw [runSeq_remove_unbound_funcs d.id d.functions h]
  rfl

theorem remove_absent (d : GraphicsDevice) (h : ∀ f ∈ d.functions, f.nodeExists = false) :
    d.remove = (Except.ok (), d, []) := by
  unfold GraphicsDevice.remove
  rw [runSeq_remove_absent_funcs d.id d.functions h]

theorem runSeq_dev_unbind_noop (ds : List GraphicsDevice)
    (h : ∀ d ∈ ds, ∀ f ∈ d.functions, f.driverNotFound = true) :
    runSeq GraphicsDevice.unbind ds = (Except.ok (), ds, []) := by
  induction ds with
  | nil => simp [runSeq]
  | cons d ds ih =>
    have hd := h d (by simp)
    have ih2 := ih (fun x hx => h x (by simp [hx]))
    simp [runSeq, unbind_noop d hd, ih2]

theorem runSeq_dev_remove_unbound (ds : List GraphicsDevice)
    (h : ∀ d ∈ ds, ∀ f ∈ d.functions, f.driverNotFound = true ∧ f.removeErr = none) :
    ∃ tr, runSeq GraphicsDevice.remove ds =
      (Except.ok (), ds.map GraphicsDevice.powerOff, tr) := by
  induction ds with
  | nil => exact ⟨[], by simp [runSeq]⟩
  | cons d ds ih =>
    have hd := h d (by simp)
    obtain ⟨tr2, htr2⟩ := ih (fun x hx => h x (by simp [hx]))
    refine ⟨(d.functions.filter (fun f => f.nodeExists)).map
      (fun f => Effect.removeWrite f.id) ++ tr2, ?_⟩
    simp [runSeq, remove_unbound d hd, htr2]

theorem runSeq_dev_remove_absent (ds : List GraphicsDevice)
    (h : ∀ d ∈ ds, ∀ f ∈ d.functions, f.nodeExists = false) :
    runSeq GraphicsDevice.remove ds = (Except.ok (), ds, []) := by
  induction ds with
  | nil => simp [runSeq]
  | cons d ds ih =>
    have hd := h d (by simp)
    have ih2 := ih (fun x hx => h x (by simp [hx]))
    simp [runSeq, remove_absent d hd, ih2]

theorem powerOff_exists_false (d : GraphicsDevice) :
    (GraphicsDevice.powerOff d).exists = false := by
  simp [GraphicsDevice.powerOff, GraphicsDevice.exists, PciDevice.powerOff]

/-- C7: on a switchable subsystem none of whose NVIDIA functions is bound
to a driver (every driver query answers not-found) and whose remove
writes succeed, `set_power(false)` succeeds — the unbind pass is a no-op
and every existing function is removed; afterwards `get_power()` reports
false, and a second `set_power(false)` also succeeds with no effect at
all: a function whose node no longer exists produces no error. -/
theorem c7_power_off_idempotent (g : Graphics) (re re2 : Option IOError)
    (hsw : g.can_switch = true)
    (h : ∀ d ∈ g.nvidia, ∀ f ∈ d.functions, f.driverNotFound = true ∧ f.removeErr = none) :
    ∃ tr, g.set_power re false =
        (Except.ok (), { g with nvidia := g.nvidia.map GraphicsDevice.powerOff }, tr) ∧
      Graphics.get_power { g with nvidia := g.nvidia.map GraphicsDevice.powerOff } =
        Except.ok false ∧
      Graphics.set_power { g with nvidia := g.nvidia.map GraphicsDevice.powerOff } re2 false =
        (Except.ok (), { g with nvidia := g.nvidia.map GraphicsDevice.powerOff }, []) := by
  have h1 : ∀ d ∈ g.nvidia, ∀ f ∈ d.functions, f.driverNotFound = true :=
    fun d hd f hf => (h d hd f hf).1
  obtain ⟨tr, htr⟩ := runSeq_dev_remove_unbound g.nvidia h
  have hcs2 : Graphics.can_switch { g with nvidia := g.nvidia.map GraphicsDevice.powerOff }
      = true := by
    simp only [Graphics.can_switch] at hsw ⊢
    rcases hnv : g.nvidia with _ | ⟨d, ds⟩
    · rw [hnv] at hsw
      simp at hsw
    · simp only [List.map]
      simp only [Bool.and_eq_true] at hsw ⊢
      exact ⟨hsw.1, by simp [List.isEmpty]⟩
  have h2nb : ∀ d ∈ g.nvidia.map GraphicsDevice.powerOff, ∀ f ∈ d.functions,
      f.driverNotFound = true := by
    intro d hd f hf
    obtain ⟨d0, hd0, rfl⟩ := List.mem_map.mp hd
    simp only [GraphicsDevice.powerOff] at hf
    obtain ⟨f0, hf0, rfl⟩ := List.mem_map.mp hf
    exact h1 d0 hd0 f0 hf0
  have h2ab : ∀ d ∈ g.nvidia.map GraphicsDevice.powerOff, ∀ f ∈ d.functions,
      f.nodeExists = false := by
    intro d hd f hf
    obtain ⟨d0, hd0, rfl⟩ := List.mem_map.mp hd
    simp only [GraphicsDevice.powerOff] at hf
    obtain ⟨f0, hf0, rfl⟩ := List.mem_map.mp hf
    rfl
  refine ⟨tr, ?_, ?_, ?_⟩
  · simp [Graphics.set_power, switchable_or_fail_ok g hsw,
      runSeq_dev_unbind_noop g.nvidia h1, htr]
  · simp only [Graphics.get_power, switchable_or_fail_ok _ hcs2]
    simp [powerOff_exists_false]
  · simp [Graphics.set_power, switchable_or_fail_ok _ hcs2,
      runSeq_dev_unbind_noop _ h2nb, runSeq_dev_remove_absent _ h2ab]

/-- Witness for C7 on the sample subsystem (no NVIDIA function bound). -/
theorem c7_witness :
    ∃ tr, sampleGraphics.set_power none false =
        (Except.ok (),
          { sampleGraphics with nvidia := sampleGraphics.nvidia.map GraphicsDevice.powerOff },
          tr) ∧
      Graphics.get_power
          { sampleGraphics with
            nvidia := sampleGraphics.nvidia.map GraphicsDevice.powerOff } =
        Except.ok false ∧
      Graphics.set_power
          { sampleGraphics with
            nvidia := sampleGraphics.nvidia.map GraphicsDevice.powerOff } none false =
        (Except.ok (),
          { sampleGraphics with nvidia := sampleGraphics.nvidia.map GraphicsDevice.powerOff },
          []) :=
  c7_power_off_idempotent sampleGraphics none none (by decide) (by decide)
